import Mathlib

/-!
# A2A_Samples — shallow embedding and verification

A shallow embedding, in Lean 4, of the task-orchestration core of the
A2A_Samples repository (Python), together with theorems settling the frozen
claims about it.  Each definition is translated from a named Python
function of the repository; network and LLM calls are abstracted as
function parameters or explicit outcome values, and Python exceptions are
modelled with `Option`/`Except`.  Definitions come first, theorems after.
-/

namespace A2A

/-! ## Data model

`Message`, `Task`, `TaskStatus` follow §3 of the spec; the Pydantic file
`models/task.py` that declares them is not part of the provided sources,
so the record shapes are modelled from the spec (`Modelled from the spec:`
Task = {id, status, history}; the level-3 task manager constructs a `Task`
with exactly the fields `id`, `status`, `history`, keyed in its store by
`sessionId`). -/

structure TextPart where
  text : String
deriving DecidableEq, Repr

structure Message where
  role : String
  parts : List TextPart
deriving DecidableEq, Repr

inductive TaskState where
  | pending
  | working
  | inputRequired
  | completed
  | error
deriving DecidableEq, Repr

structure TaskStatus where
  state : TaskState
deriving DecidableEq, Repr

structure Task where
  id : String
  status : TaskStatus
  history : List Message
deriving DecidableEq, Repr

/-- The in-memory task store of `AgentTaskManager` (`self._tasks`, a dict
keyed by `sessionId`), modelled as an association list; the most recently
inserted binding is found first, matching dict lookup on distinct keys. -/
abbrev TaskStore := List (String × Task)

/-! ## Task Manager (src/a2a_level_3/agents/tell_time_agent/task_manager.py) -/

/-- The `Task(id=task_id, status=..., history=[])` constructed by
`AgentTaskManager.upsert_task` for an unseen `sessionId`. -/
def freshTask (sessionId : String) : Task :=
  { id := sessionId, status := { state := TaskState.pending }, history := [] }

/-- `AgentTaskManager.upsert_task` (lines 44-53): under the lock, if the
sessionId is not a key of `self._tasks`, insert a fresh pending task;
return the task stored at the sessionId.  The returned pair is the updated
store and the returned task. -/
def upsert_task (tasks : TaskStore) (sessionId : String) : TaskStore × Task :=
  match tasks.lookup sessionId with
  | some t => (tasks, t)
  | none => ((sessionId, freshTask sessionId) :: tasks, freshTask sessionId)

/-- The locked mutation block of `on_send_task` (lines 74-76): set the
task status to COMPLETED and append the agent message to its history. -/
def append_reply (t : Task) (reply : Message) : Task :=
  { t with status := { state := TaskState.completed }, history := t.history ++ [reply] }

/-- The status edges of the §4.3 state machine, with the directly
permitted non-streaming edge pending→completed included. -/
def allowedEdge (a b : TaskState) : Bool :=
  (a, b) ∈ [
    (TaskState.pending, TaskState.working),
    (TaskState.working, TaskState.inputRequired),
    (TaskState.working, TaskState.completed),
    (TaskState.working, TaskState.error),
    (TaskState.pending, TaskState.error),
    (TaskState.inputRequired, TaskState.working),
    (TaskState.pending, TaskState.completed)]

/-! ## Agent cards (src/a2a_level_4/models/agent.py) -/

structure AgentCapabilities where
  can_tell_time : Bool
deriving DecidableEq, Repr

structure AgentSkill where
  id : String
  name : String
  description : String
  tags : List String
  examples : List String
deriving DecidableEq, Repr

/-- `AgentCard` as declared in models/agent.py.  Note the model declares
no `id` field (and misspells `desciption`), which matters for resolution
below. -/
structure AgentCard where
  name : String
  desciption : String
  url : String
  version : String
  defaultInputModes : List String
  defaultOutputModes : List String
  capabilities : AgentCapabilities
  skills : List AgentSkill
deriving DecidableEq, Repr

/-! ## Capability resolution

`GreetingAgent._build_orchestrator.call_agent`
(src/a2a_level_4/agents/greeting_agent/agent.py, lines 87-106) and
`OrchestratorAgent._delegate_task`
(src/a2a_level_4/agents/host_agent/orchestrator.py, lines 148-151). -/

/-- Python's `getattr(c, "id", "")`: `AgentCard` declares no `id`
attribute, so the default `""` is always returned. -/
def card_id_attr (_ : AgentCard) : String := ""

/-- Python's `str.lower()`, on the ASCII agent names used here:
per-character lowercasing. -/
def py_lower (s : String) : String := String.mk (s.data.map Char.toLower)

/-- Python's substring containment `needle in hay`, on exploded strings. -/
def char_list_has_sub (hay needle : List Char) : Bool :=
  match hay with
  | [] => needle.isEmpty
  | _ :: rest => needle.isPrefixOf hay || char_list_has_sub rest needle

/-- The first-tier predicate of `call_agent`:
`c.name.lower() == agent_name.lower() or getattr(c, "id", "").lower() == agent_name.lower()`. -/
def exact_match_pred (agent_name : String) (c : AgentCard) : Bool :=
  py_lower c.name == py_lower agent_name || py_lower (card_id_attr c) == py_lower agent_name

/-- The second-tier predicate of `call_agent`:
`agent_name.lower() in c.name.lower()`. -/
def sub_match_pred (agent_name : String) (c : AgentCard) : Bool :=
  char_list_has_sub (py_lower c.name).data (py_lower agent_name).data

/-- `call_agent`'s resolution (lines 90-106): `next(...)` over the exact
predicate, else `next(...)` over the substring predicate, else the
`ValueError` — modelled as `none`. -/
def call_agent_resolve (cards : List AgentCard) (agent_name : String) : Option AgentCard :=
  match cards.find? (exact_match_pred agent_name) with
  | some c => some c
  | none => cards.find? (sub_match_pred agent_name)

/-- `OrchestratorAgent._delegate_task`'s resolution (lines 149-151):
`if agent_name not in self.connectors: raise ValueError(...)`, an exact,
case-sensitive dict-key membership test on the registered names. -/
def delegate_task_resolve (connectors : List String) (agent_name : String) : Bool :=
  connectors.contains agent_name

/-- Modelled from the spec: §4.5 `resolve(name)` in the spec's own words —
first entry of the exact-tier matches, else first entry of the
substring-tier matches, else `UnknownCapability` (`none`).  Used as the
refinement target for `call_agent_resolve`. -/
def resolve_spec_two_tier (cards : List AgentCard) (agent_name : String) : Option AgentCard :=
  match cards.filter (exact_match_pred agent_name) with
  | c :: _ => some c
  | [] =>
    match cards.filter (sub_match_pred agent_name) with
    | c :: _ => some c
    | [] => none

/-- A concrete registered card for resolution theorems. -/
def tellTimeCard : AgentCard :=
  { name := "TellTimeAgent", desciption := "tells time", url := "http://localhost:10000",
    version := "1.0", defaultInputModes := [], defaultOutputModes := [],
    capabilities := { can_tell_time := true }, skills := [] }

/-! ## Dispatch reply extraction

`OrchestratorAgent._delegate_task` (orchestrator.py, lines 163-165) and
`call_agent` (greeting agent, lines 125-128). -/

/-- The reply extraction of `_delegate_task`:
`if child_task.history and len(child_task.history) > 1: return
child_task.history[-1].parts[0].text` else `return ""`.  `none` models the
`IndexError` raised when the selected entry has no parts; `some s` is the
returned string. -/
def delegate_task_reply (history : List Message) : Option String :=
  if !history.isEmpty && decide (1 < history.length) then
    (history.getLast?.bind fun m => m.parts.head?).map fun p => p.text
  else
    some ""

/-- The reply extraction of the greeting agent's `call_agent`:
`if task.history and task.history[-1].parts: return
task.history[-1].parts[0].text` else `return ""`.  Total — never raises. -/
def call_agent_reply (history : List Message) : String :=
  match history.getLast? with
  | some m =>
    match m.parts.head? with
    | some p => p.text
    | none => ""
  | none => ""

/-- A single-entry history whose (last) entry carries the text "hello". -/
def c2hist : List Message := [{ role := "agent", parts := [{ text := "hello" }] }]

/-! ## Send-task requests and the send-task handler

`AgentTaskManager.on_send_task`
(src/a2a_level_3/agents/tell_time_agent/task_manager.py, lines 55-78).
The level-4 `OrchestratorTaskManager.on_send_task` (orchestrator.py,
lines 227-251) has the same structure: upsert first, then extract
`parts[0].text`, then invoke, then append under the lock. -/

structure TaskSendParams where
  id : String
  sessionId : String
  message : Message
deriving DecidableEq, Repr

structure SendTaskRequest where
  id : String
  params : TaskSendParams
deriving DecidableEq, Repr

structure SendTaskResponse where
  id : String
  result : Task
deriving DecidableEq, Repr

/-- `_get_user_query` / `_get_user_text`:
`request.params.message.parts[0].text`.  `none` models the `IndexError`
raised when the message has no parts. -/
def get_user_query (req : SendTaskRequest) : Option String :=
  req.params.message.parts.head?.map fun p => p.text

/-- Replacing the binding of a key in the store, modelling Python's
in-place mutation of the `Task` object held by the dict. -/
def store_update (store : TaskStore) (sid : String) (t : Task) : TaskStore :=
  store.map fun p => if p.1 == sid then (p.1, t) else p

/-- `on_send_task` (task_manager.py lines 55-78): upsert the task for the
sessionId, extract the user text (raising on a malformed message), invoke
the agent — abstracted as the function `invoke` from user text and
sessionId to reply text — and append the completed agent reply.  Returns
the updated store and either the `SendTaskResponse` or the text of the
uncaught exception. -/
def on_send_task (invoke : String → String → String) (store : TaskStore)
    (req : SendTaskRequest) : TaskStore × Except String SendTaskResponse :=
  match get_user_query req with
  | none =>
    ((upsert_task store req.params.sessionId).1,
      Except.error "IndexError: list index out of range")
  | some q =>
    let t2 := append_reply (upsert_task store req.params.sessionId).2
      { role := "agent", parts := [{ text := invoke q req.params.sessionId }] }
    (store_update (upsert_task store req.params.sessionId).1 req.params.sessionId t2,
      Except.ok { id := req.id, result := t2 })

/-- A stand-in external agent that answers every query with "resp". -/
def constResp : String → String → String := fun _ _ => "resp"

/-- A malformed request (message with no parts) with sessionId "s1". -/
def c6req : SendTaskRequest :=
  { id := "r1",
    params := { id := "t1", sessionId := "s1", message := { role := "user", parts := [] } } }

/-! ## JSON-RPC envelopes and the server (src/a2a_level_3/server/server.py,
src/a2a_level_4/models/json_rpc.py) -/

structure JSONRPCError where
  code : Int
  message : String
  data : Option String
deriving DecidableEq, Repr

/-- `InternalError(message=str(e))` from models/json_rpc.py: code -32603,
the exception text as the message, `data` left `None`. -/
def internal_error (e : String) : JSONRPCError :=
  { code := -32603, message := e, data := none }

/-- The JSON-RPC response envelope (models/json_rpc.py `JSONRPCResponse`);
`id = none` renders as JSON `null`. -/
structure JSONRPCResponse where
  id : Option String
  result : Option Task
  error : Option JSONRPCError
deriving DecidableEq, Repr

/-- `A2AServer.handle_request` (server.py lines 43-72) composed with
`on_send_task`: a successfully handled `SendTaskRequest` is encoded as a
success envelope from the `SendTaskResponse` (whose `id` was set to
`request.id` by `on_send_task`); any exception is caught and encoded as
`JSONRPCResponse(id=None, error=InternalError(message=str(e)))`. -/
def server_handle (invoke : String → String → String) (store : TaskStore)
    (req : SendTaskRequest) : TaskStore × JSONRPCResponse :=
  match on_send_task invoke store req with
  | (store2, Except.ok resp) =>
    (store2, { id := some resp.id, result := some resp.result, error := none })
  | (store2, Except.error e) =>
    (store2, { id := none, result := none, error := some (internal_error e) })

/-- A malformed request carrying the correlation id "42". -/
def c5req : SendTaskRequest :=
  { id := "42",
    params := { id := "t5", sessionId := "s5", message := { role := "user", parts := [] } } }

/-- A well-formed request carrying the correlation id "7". -/
def c5okReq : SendTaskRequest :=
  { id := "7",
    params := { id := "t7", sessionId := "s7",
                message := { role := "user", parts := [{ text := "hi" }] } } }

/-! ## Discovery (src/a2a_level_3/utilities/discovery.py) -/

/-- Outcome of fetching one source's `/.well-known/agent.json`: `ok` is a
200 reply whose body parses into an `AgentCard`; `failure` covers every
exception caught by the per-source `try` (unreachable host, timeout,
non-200 via `raise_for_status`, malformed body). -/
inductive FetchResult where
  | ok (card : AgentCard)
  | failure
deriving DecidableEq, Repr

/-- `DiscoveryClient.list_agent_card` (lines 46-66): visit each base URL
in source order, appending the successfully parsed card and skipping (with
only a log) every failing source.  `fetch` abstracts the network round
trip.  The function is total: no input makes it raise. -/
def list_agent_card (fetch : String → FetchResult) : List String → List AgentCard
  | [] => []
  | u :: rest =>
    match fetch u with
    | FetchResult.ok c => c :: list_agent_card fetch rest
    | FetchResult.failure => list_agent_card fetch rest

/-- Contents of the registry file as `_load_registry` (lines 31-44) can
observe them: missing file, JSON parse failure, JSON that is not a list,
or a list of base URLs. -/
inductive RegistryData where
  | missing
  | unparseable
  | notAList
  | entries (urls : List String)
deriving DecidableEq, Repr

/-- `DiscoveryClient._load_registry`: a missing, unparseable or non-list
registry file yields the empty source list; otherwise the listed URLs. -/
def load_registry : RegistryData → List String
  | RegistryData.entries urls => urls
  | _ => []

/-- The spec's §8 discovery scenario as a concrete fetch function:
`http://a` answers with a valid card, every other source fails. -/
def demoFetch : String → FetchResult := fun u =>
  if u == "http://a" then FetchResult.ok tellTimeCard else FetchResult.failure

/-! ## Session continuity in `_delegate_task` (orchestrator.py, lines 153-160) -/

/-- The session-id logic of `OrchestratorAgent._delegate_task`.  The tool
state (`tool_context.state`) may already hold a `"session_id"` entry; if
not, one is fabricated once via `str(uuid.uuid4())` (the `fresh_uuid`
argument) and stored.  Returns the updated state entry and the session id
used for the outbound connector call.  The inbound request's `sessionId`
(`inbound` argument) is available to the enclosing task manager but is
never consulted here. -/
def delegate_task_session (inbound : String) (state : Option String)
    (fresh_uuid : String) : Option String × String :=
  match inbound, state with
  | _, some s => (some s, s)
  | _, none => (some fresh_uuid, fresh_uuid)

/-- Two consecutive `_delegate_task` dispatches from the same tool state:
the pair of outbound session ids. -/
def delegate_twice (inbound : String) (state : Option String)
    (u1 u2 : String) : String × String :=
  ((delegate_task_session inbound state u1).2,
    (delegate_task_session inbound (delegate_task_session inbound state u1).1 u2).2)

/-! ## Connector failure surfacing (src/a2a_level_3/client/client.py lines
42-56, src/a2a_level_4/utilities/a2a/agent_connector.py lines 26-50) -/

/-- Outcome of the single `httpx` POST performed by
`A2AClient._send_request`: a transport-level failure of the call itself, a
non-2xx status (turned into `httpx.HTTPStatusError`, a subclass of
`httpx.HTTPError`, by `raise_for_status`), a 2xx reply whose body is not
JSON, or a decoded JSON body — the `result` field holds the Task when the
body carries one. -/
inductive WireOutcome where
  | transportFailure (detail : String)
  | badStatus (detail : String)
  | invalidJson (detail : String)
  | okJson (result : Option Task)
deriving DecidableEq, Repr

/-- The two custom exception classes of client.py. -/
inductive ClientError where
  | a2aClientHttpError (msg : String)
  | a2aClientJsonError (msg : String)
deriving DecidableEq, Repr

/-- `A2AClient._send_request`: perform the POST once; re-raise
`httpx.HTTPError` as `A2AClientHttpError` and `json.JSONDecodeError` as
`A2AClientJSONError`, with the formatted messages of lines 53 and 56.
The single `WireOutcome` argument is consumed exactly once: the connector
performs no retry. -/
def send_request : WireOutcome → Except ClientError (Option Task)
  | WireOutcome.transportFailure d =>
    Except.error (ClientError.a2aClientHttpError ("HTTP error occurred: " ++ d))
  | WireOutcome.badStatus d =>
    Except.error (ClientError.a2aClientHttpError ("HTTP error occurred: " ++ d))
  | WireOutcome.invalidJson d =>
    Except.error (ClientError.a2aClientJsonError ("Error parsing JSON response: " ++ d))
  | WireOutcome.okJson r => Except.ok r

/-- `AgentConnector.send_task` (agent_connector.py lines 26-50) delegates
to `A2AClient.send_task`, which calls `_send_request` once and, on
success, reads the reply's `result` field; it installs no exception
handler, so client errors propagate unchanged to the caller. -/
def connector_send_task (o : WireOutcome) : Except ClientError (Option Task) :=
  send_request o

/-! ## Tool cache copy (src/a2a_level_4/utilities/mcp/mcp_connector.py,
lines 124-129)

`MCPConnector.get_tools` returns `self.tools.copy()`.  The claim is about
Python aliasing, so the embedding makes the heap explicit: a store of
list objects addressed by reference, where `list.copy()` allocates a
fresh reference holding the same elements. -/

/-- A heap of Python list objects (tool lists), addressed by `Nat`
references; each cell holds the tool names of the cached `MCPTool`s. -/
abbrev ToolHeap := List (Nat × List String)

/-- A reference unused by the heap (strictly above every allocated one). -/
def fresh_ref (h : ToolHeap) : Nat := (h.map Prod.fst).foldr max 0 + 1

/-- Dereference: the list object stored at `r`. -/
def heap_get (h : ToolHeap) (r : Nat) : List String := (h.lookup r).getD []

/-- In-place mutation of the list object at `r` (append, remove, reorder
— any replacement of its contents). -/
def heap_set (h : ToolHeap) (r : Nat) (v : List String) : ToolHeap :=
  h.map fun p => if p.1 == r then (p.1, v) else p

/-- `MCPConnector.get_tools`: `return self.tools.copy()` — allocate a
fresh list object with the same elements as the internal cache at
`internal` and return its reference. -/
def get_tools (h : ToolHeap) (internal : Nat) : ToolHeap × Nat :=
  ((fresh_ref h, heap_get h internal) :: h, fresh_ref h)

/-! ## Helper lemmas -/

theorem lookup_none_not_mem {α : Type} {store : List (String × α)} {sid : String}
    (h : store.lookup sid = none) : sid ∉ store.map Prod.fst := by
  induction store with
  | nil => simp
  | cons p t ih =>
    obtain ⟨k, v⟩ := p
    rw [List.lookup] at h
    split at h
    · simp at h
    · rename_i hbe
      simp only [List.map_cons, List.mem_cons]
      intro hc
      rcases hc with hc | hc
      · subst hc
        simp at hbe
      · exact ih h hc

theorem lookup_cons_self {κ α : Type} [BEq κ] [LawfulBEq κ] (t : α)
    (store : List (κ × α)) (sid : κ) :
    ((sid, t) :: store).lookup sid = some t := by
  rw [List.lookup]
  simp

theorem lookup_cons_ne {κ α : Type} [BEq κ] [LawfulBEq κ] (f k : κ) (v : α)
    (t : List (κ × α)) (hne : k ≠ f) : ((f, v) :: t).lookup k = t.lookup k := by
  rw [List.lookup]
  have hb : (k == f) = false := by simp [hne]
  rw [hb]

theorem find?_eq_head_filter {α : Type} (p : α → Bool) (l : List α) :
    l.find? p = (l.filter p).head? := by
  induction l with
  | nil => rfl
  | cons a t ih =>
    cases hp : p a with
    | true => rw [List.find?_cons_of_pos _ hp, List.filter_cons_of_pos hp]; rfl
    | false =>
      rw [List.find?_cons_of_neg _ (by simp [hp]), List.filter_cons_of_neg (by simp [hp]), ih]

theorem mem_le_foldr_max (k : Nat) (l : List Nat) (hmem : k ∈ l) :
    k ≤ l.foldr max 0 := by
  induction l with
  | nil => simp at hmem
  | cons a t ih =>
    rcases List.mem_cons.mp hmem with h | h
    · subst h
      exact Nat.le_max_left _ _
    · exact Nat.le_trans (ih h) (Nat.le_max_right _ _)

theorem mem_ne_fresh_ref {h : ToolHeap} {k : Nat} (hmem : k ∈ h.map Prod.fst) :
    k ≠ fresh_ref h := by
  intro hc
  have := mem_le_foldr_max k (h.map Prod.fst) hmem
  rw [hc] at this
  rw [fresh_ref] at this
  omega

theorem lookup_heap_set_ne (h : ToolHeap) (r k : Nat) (v : List String)
    (hne : k ≠ r) : (heap_set h r v).lookup k = h.lookup k := by
  induction h with
  | nil => rfl
  | cons p t ih =>
    obtain ⟨pk, pv⟩ := p
    rw [heap_set, List.map_cons]
    by_cases hpk : (pk == r) = true
    · rw [if_pos hpk]
      have hpkr : pk = r := by simpa using hpk
      have hk : (k == pk) = false := by
        subst hpkr
        simp [hne]
      rw [List.lookup, List.lookup, hk]
      exact ih
    · rw [if_neg hpk]
      rw [List.lookup, List.lookup]
      cases hkk : (k == pk) with
      | true => rfl
      | false => exact ih

/-! ## Claim C3 — upsert_task idempotency -/

/-- Claim C3: `upsert_task` is idempotent per session.  For every store
and sessionId: after a call, the store maps the sessionId to the returned
task; a second call with the same sessionId returns the same store and the
same task (so no second Task is ever created for that sessionId); the
first call with an unseen sessionId creates exactly one fresh pending
task; and distinctness of sessionId keys is preserved, so at most one Task
exists per sessionId. -/
theorem upsert_task_idempotent (store : TaskStore) (sid : String)
    (hnd : (store.map Prod.fst).Nodup) :
    (upsert_task store sid).1.lookup sid = some (upsert_task store sid).2 ∧
    upsert_task (upsert_task store sid).1 sid = upsert_task store sid ∧
    (store.lookup sid = none →
      (upsert_task store sid).1 = (sid, freshTask sid) :: store ∧
      (upsert_task store sid).2 = freshTask sid) ∧
    ((upsert_task store sid).1.map Prod.fst).Nodup := by
  cases h : store.lookup sid with
  | some t =>
    refine ⟨?_, ?_, ?_, ?_⟩
    · simp [upsert_task, h]
    · simp [upsert_task, h]
    · intro hc; simp [h] at hc
    · simp [upsert_task, h]; exact hnd
  | none =>
    have hmem : sid ∉ store.map Prod.fst := lookup_none_not_mem h
    refine ⟨?_, ?_, ?_, ?_⟩
    · simp only [upsert_task, h]
      exact lookup_cons_self _ _ _
    · have h2 : ((sid, freshTask sid) :: store).lookup sid = some (freshTask sid) :=
        lookup_cons_self _ _ _
      simp [upsert_task, h, h2]
    · intro _; simp [upsert_task, h]
    · simp only [upsert_task, h, List.map_cons, List.nodup_cons]
      exact ⟨hmem, hnd⟩

/-- Witness for C3 at the empty store and sessionId "s1". -/
theorem upsert_task_idempotent_witness :
    (([] : TaskStore).map Prod.fst).Nodup ∧
    ((upsert_task [] "s1").1.lookup "s1" = some (upsert_task [] "s1").2 ∧
      upsert_task (upsert_task [] "s1").1 "s1" = upsert_task [] "s1" ∧
      (([] : TaskStore).lookup "s1" = none →
        (upsert_task [] "s1").1 = ("s1", freshTask "s1") :: [] ∧
        (upsert_task [] "s1").2 = freshTask "s1") ∧
      ((upsert_task [] "s1").1.map Prod.fst).Nodup) :=
  ⟨by decide, upsert_task_idempotent [] "s1" (by decide)⟩

/-! ## Claim C4 — append-only history and status edges -/

/-- Claim C4: each successful reply append grows the history by exactly
one entry, keeps the previous history intact as a prefix (append-only),
and, for every task state that this manager can actually store (tasks are
created `pending` and only ever set to `completed`), the status either
stays the same or moves along a permitted §4.3 edge — in particular
directly pending→completed. -/
theorem append_reply_spec (t : Task) (m : Message)
    (h : t.status.state = TaskState.pending ∨ t.status.state = TaskState.completed) :
    (append_reply t m).history.length = t.history.length + 1 ∧
    (append_reply t m).history = t.history ++ [m] ∧
    ((append_reply t m).status.state = t.status.state ∨
      allowedEdge t.status.state (append_reply t m).status.state = true) := by
  refine ⟨by simp [append_reply], by simp [append_reply], ?_⟩
  rcases h with h | h
  · right; simp [append_reply, allowedEdge, h]
  · left; simp [append_reply, h]

/-- Witness for C4 at a concrete pending task. -/
theorem append_reply_spec_witness :
    ((freshTask "s1").status.state = TaskState.pending ∨
      (freshTask "s1").status.state = TaskState.completed) ∧
    ((append_reply (freshTask "s1") { role := "agent", parts := [{ text := "hi" }] }).history.length
        = (freshTask "s1").history.length + 1 ∧
      (append_reply (freshTask "s1") { role := "agent", parts := [{ text := "hi" }] }).history
        = (freshTask "s1").history ++ [{ role := "agent", parts := [{ text := "hi" }] }] ∧
      ((append_reply (freshTask "s1") { role := "agent", parts := [{ text := "hi" }] }).status.state
          = (freshTask "s1").status.state ∨
        allowedEdge (freshTask "s1").status.state
          (append_reply (freshTask "s1") { role := "agent", parts := [{ text := "hi" }] }).status.state
          = true)) :=
  ⟨Or.inl rfl,
    append_reply_spec (freshTask "s1") { role := "agent", parts := [{ text := "hi" }] } (Or.inl rfl)⟩

/-! ## Claim C1 — capability resolution -/

/-- Counterexample to C1: the host orchestrator's `_delegate_task` does
NOT resolve in two case-insensitive tiers.  With `TellTimeAgent`
registered, the input `"telltimeagent"` is an exact case-insensitive
match of a registered name (and the greeting agent's two-tier resolver
finds it), yet `_delegate_task` reports it unknown. -/
theorem delegate_task_resolve_not_two_tier :
    delegate_task_resolve ["TellTimeAgent"] "telltimeagent" = false ∧
    py_lower "telltimeagent" = py_lower "TellTimeAgent" ∧
    call_agent_resolve [tellTimeCard] "telltimeagent" = some tellTimeCard := by
  refine ⟨by decide, by decide, by decide⟩

/-- Claim C1 (amended): the greeting agent's `call_agent` resolves in two
tiers exactly as the spec words them — first exact case-insensitive match
(the `id` attribute being absent, its tier-one contribution degenerates to
the empty string), then first case-insensitive substring match in
registration order, else an unknown-capability error — and, being a pure
function of the registered set and the input name, it is deterministic.
The host orchestrator's `_delegate_task`, by contrast, resolves only by
exact case-sensitive membership of the registered names. -/
theorem call_agent_resolve_two_tier (cards : List AgentCard) (agent_name : String) :
    call_agent_resolve cards agent_name = resolve_spec_two_tier cards agent_name ∧
    (call_agent_resolve cards agent_name = none ↔
      ∀ c ∈ cards, exact_match_pred agent_name c = false ∧ sub_match_pred agent_name c = false) ∧
    (∀ connectors : List String,
      delegate_task_resolve connectors agent_name = true ↔ agent_name ∈ connectors) := by
  refine ⟨?_, ?_, ?_⟩
  · rw [call_agent_resolve, resolve_spec_two_tier, find?_eq_head_filter, find?_eq_head_filter]
    cases cards.filter (exact_match_pred agent_name) with
    | nil =>
      cases cards.filter (sub_match_pred agent_name) with
      | nil => rfl
      | cons c t => rfl
    | cons c t => rfl
  · constructor
    · intro h c hc
      rw [call_agent_resolve] at h
      cases he : cards.find? (exact_match_pred agent_name) with
      | some d => rw [he] at h; exact absurd h (by simp)
      | none =>
        rw [he] at h
        have h1 := List.find?_eq_none.mp he c hc
        have h2 := List.find?_eq_none.mp h c hc
        exact ⟨by simpa using h1, by simpa using h2⟩
    · intro h
      rw [call_agent_resolve]
      have he : cards.find? (exact_match_pred agent_name) = none :=
        List.find?_eq_none.mpr fun c hc => by simp [(h c hc).1]
      rw [he]
      exact List.find?_eq_none.mpr fun c hc => by simp [(h c hc).2]
  · intro connectors
    rw [delegate_task_resolve]
    simp

/-- Witness for C1 (amended) at the one-card set and the spec's §8
substring scenario input "time". -/
theorem call_agent_resolve_two_tier_witness :
    (call_agent_resolve [tellTimeCard] "time" = resolve_spec_two_tier [tellTimeCard] "time" ∧
      (call_agent_resolve [tellTimeCard] "time" = none ↔
        ∀ c ∈ [tellTimeCard],
          exact_match_pred "time" c = false ∧ sub_match_pred "time" c = false) ∧
      (∀ connectors : List String,
        delegate_task_resolve connectors "time" = true ↔ "time" ∈ connectors)) :=
  call_agent_resolve_two_tier [tellTimeCard] "time"

/-! ## Claim C2 — dispatch reply extraction -/

/-- Counterexample to C2: on a Task whose history is the single entry
"hello", `_delegate_task` returns the empty string, not the text of the
last history entry. -/
theorem delegate_task_reply_single_entry :
    delegate_task_reply c2hist = some "" ∧
    c2hist.getLast? = some { role := "agent", parts := [{ text := "hello" }] } ∧
    ("" : String) ≠ "hello" := by
  refine ⟨by decide, by decide, by decide⟩

/-- Claim C2 (amended): in the host orchestrator, dispatch returns the
text of the last history entry only when the history has MORE THAN ONE
entry; for an empty or single-entry history it returns the empty string
(no error).  The greeting agent's dispatch returns the last entry's first
part text whenever the history is nonempty and that entry has parts, and
the empty string on an empty history, never an error. -/
theorem dispatch_reply_extraction (history : List Message) :
    (history.length ≤ 1 → delegate_task_reply history = some "") ∧
    (∀ m p rest, history.getLast? = some m → m.parts = p :: rest →
      (1 < history.length → delegate_task_reply history = some p.text) ∧
      call_agent_reply history = p.text) ∧
    (history = [] → call_agent_reply history = "") := by
  refine ⟨?_, ?_, ?_⟩
  · intro hlen
    rw [delegate_task_reply]
    have : ¬ (1 < history.length) := by omega
    simp [this]
  · intro m p rest hlast hparts
    constructor
    · intro hlen
      rw [delegate_task_reply]
      have hne : history.isEmpty = false := by
        cases history with
        | nil => simp at hlast
        | cons a t => rfl
      simp only [hne, Bool.not_false, Bool.true_and, decide_eq_true_eq, hlen, if_pos]
      rw [hlast]
      simp [hparts]
    · simp [call_agent_reply, hlast, hparts]
  · intro h
    subst h
    rfl

/-- Witness for C2 (amended) on a two-entry history ending in "pong". -/
theorem dispatch_reply_extraction_witness :
    (([({ role := "user", parts := [{ text := "ping" }] } : Message),
       { role := "agent", parts := [{ text := "pong" }] }].length ≤ 1) →
      delegate_task_reply [{ role := "user", parts := [{ text := "ping" }] },
        { role := "agent", parts := [{ text := "pong" }] }] = some "") ∧
    ((∀ m p rest,
      ([({ role := "user", parts := [{ text := "ping" }] } : Message),
        { role := "agent", parts := [{ text := "pong" }] }].getLast? = some m) →
      m.parts = p :: rest →
      (1 < [({ role := "user", parts := [{ text := "ping" }] } : Message),
        { role := "agent", parts := [{ text := "pong" }] }].length →
        delegate_task_reply [{ role := "user", parts := [{ text := "ping" }] },
          { role := "agent", parts := [{ text := "pong" }] }] = some p.text) ∧
      call_agent_reply [{ role := "user", parts := [{ text := "ping" }] },
        { role := "agent", parts := [{ text := "pong" }] }] = p.text) ∧
    (([({ role := "user", parts := [{ text := "ping" }] } : Message),
       { role := "agent", parts := [{ text := "pong" }] }] = ([] : List Message)) →
      call_agent_reply [{ role := "user", parts := [{ text := "ping" }] },
        { role := "agent", parts := [{ text := "pong" }] }] = "")) :=
  ⟨(dispatch_reply_extraction [{ role := "user", parts := [{ text := "ping" }] },
      { role := "agent", parts := [{ text := "pong" }] }]).1,
    (dispatch_reply_extraction [{ role := "user", parts := [{ text := "ping" }] },
      { role := "agent", parts := [{ text := "pong" }] }]).2⟩

/-! ## Claim C6 — malformed requests and state mutation order -/

/-- Counterexample to C6: on a malformed request (no message parts) with
the unseen sessionId "s1" against the empty store, the handler does fail,
but only AFTER `upsert_task` has mutated the store: the resulting store
contains a freshly created Task for "s1", contradicting "no Task is
created or updated for that sessionId when the format error is raised". -/
theorem on_send_task_creates_before_failure :
    on_send_task constResp [] c6req
      = ([("s1", freshTask "s1")], Except.error "IndexError: list index out of range") := by
  rfl

/-- Claim C6 (amended): on every malformed request (message with no
parts), `on_send_task` raises an uncaught IndexError while extracting the
text — not a structured client-facing format error — and it does so only
after `upsert_task` has already run: the store returned at the failure is
exactly the post-upsert store, so the Task for that sessionId has already
been created (if unseen) and is retrievable; no reply is appended and no
status is changed beyond that creation. -/
theorem on_send_task_malformed (invoke : String → String → String)
    (store : TaskStore) (req : SendTaskRequest)
    (hmal : req.params.message.parts = []) :
    (on_send_task invoke store req).2 = Except.error "IndexError: list index out of range" ∧
    (on_send_task invoke store req).1 = (upsert_task store req.params.sessionId).1 ∧
    (store.lookup req.params.sessionId = none →
      (on_send_task invoke store req).1.lookup req.params.sessionId
        = some (freshTask req.params.sessionId)) := by
  have hq : get_user_query req = none := by
    rw [get_user_query, hmal]
    rfl
  refine ⟨?_, ?_, ?_⟩
  · rw [on_send_task, hq]
  · rw [on_send_task, hq]
  · intro hnone
    rw [on_send_task, hq]
    simp only [upsert_task, hnone]
    exact lookup_cons_self _ _ _

/-- Witness for C6 (amended) at the concrete malformed request. -/
theorem on_send_task_malformed_witness :
    c6req.params.message.parts = [] ∧
    ((on_send_task constResp [] c6req).2 = Except.error "IndexError: list index out of range" ∧
      (on_send_task constResp [] c6req).1 = (upsert_task [] c6req.params.sessionId).1 ∧
      (([] : TaskStore).lookup c6req.params.sessionId = none →
        (on_send_task constResp [] c6req).1.lookup c6req.params.sessionId
          = some (freshTask c6req.params.sessionId))) :=
  ⟨rfl, on_send_task_malformed constResp [] c6req rfl⟩

/-! ## Claim C5 — correlation id echoing -/

/-- Counterexample to C5: the error envelope produced on internal failure
does NOT echo the request id.  For the request with id "42" whose handling
raises, the encoded error envelope carries `id = none` (JSON null), not
`some "42"`. -/
theorem server_error_envelope_drops_id :
    (server_handle constResp [] c5req).2.id = none ∧
    c5req.id = "42" ∧
    (none : Option String) ≠ some "42" := by
  refine ⟨by decide, rfl, by decide⟩

/-- Claim C5 (amended): success envelopes echo the originating request id
unchanged (decoding the just-encoded envelope recovers it), with the Task
as result and no error; the error envelope produced on internal failure
instead carries `id` null — not the request id — with the generic
internal-error code -32603 and the exception text as its human-readable
message. -/
theorem server_handle_envelope (invoke : String → String → String)
    (store : TaskStore) (req : SendTaskRequest) :
    (∀ s resp, on_send_task invoke store req = (s, Except.ok resp) →
      (server_handle invoke store req).2
        = { id := some req.id, result := some resp.result, error := none }) ∧
    (∀ s e, on_send_task invoke store req = (s, Except.error e) →
      (server_handle invoke store req).2
        = { id := none, result := none, error := some (internal_error e) }) := by
  constructor
  · intro s resp h
    have hid : resp.id = req.id := by
      rw [on_send_task] at h
      cases hq : get_user_query req with
      | none =>
        rw [hq] at h
        simp at h
      | some q =>
        rw [hq] at h
        simp only [Prod.mk.injEq, Except.ok.injEq] at h
        obtain ⟨-, h2⟩ := h
        rw [← h2]
    rw [server_handle, h]
    dsimp only
    rw [hid]
  · intro s e h
    rw [server_handle, h]

/-- Witness for C5 (amended) at a well-formed concrete request. -/
theorem server_handle_envelope_witness :
    (∀ s resp, on_send_task constResp [] c5okReq = (s, Except.ok resp) →
      (server_handle constResp [] c5okReq).2
        = { id := some c5okReq.id, result := some resp.result, error := none }) ∧
    (∀ s e, on_send_task constResp [] c5okReq = (s, Except.error e) →
      (server_handle constResp [] c5okReq).2
        = { id := none, result := none, error := some (internal_error e) }) :=
  server_handle_envelope constResp [] c5okReq

/-! ## Claim C7 — discovery partial failure -/

/-- Claim C7: with N configured sources of which K fail, discovery
returns exactly the N−K successfully parsed descriptors, in source order
(the result is precisely the in-order filterMap of the successes), and a
missing, unparseable or non-list registry yields an empty source list and
hence an empty descriptor set.  Totality of `list_agent_card` is the
never-raises part. -/
theorem discovery_partial_failure (fetch : String → FetchResult) (urls : List String) :
    list_agent_card fetch urls
      = urls.filterMap (fun u =>
          match fetch u with
          | FetchResult.ok c => some c
          | FetchResult.failure => none) ∧
    (list_agent_card fetch urls).length
        + urls.countP (fun u => decide (fetch u = FetchResult.failure))
      = urls.length ∧
    load_registry RegistryData.missing = [] ∧
    load_registry RegistryData.unparseable = [] ∧
    load_registry RegistryData.notAList = [] ∧
    list_agent_card fetch (load_registry RegistryData.missing) = [] := by
  refine ⟨?_, ?_, rfl, rfl, rfl, rfl⟩
  · induction urls with
    | nil => rfl
    | cons u rest ih =>
      cases hf : fetch u with
      | ok c => simp [list_agent_card, List.filterMap_cons, hf, ih]
      | failure => simp [list_agent_card, List.filterMap_cons, hf, ih]
  · induction urls with
    | nil => rfl
    | cons u rest ih =>
      rw [List.countP_cons, List.length_cons]
      cases hf : fetch u with
      | ok c =>
        have h1 : list_agent_card fetch (u :: rest) = c :: list_agent_card fetch rest := by
          rw [list_agent_card, hf]
        have h2 : (if decide (FetchResult.ok c = FetchResult.failure) = true
            then 1 else 0) = 0 := by simp
        rw [h1, h2, List.length_cons]
        omega
      | failure =>
        have h1 : list_agent_card fetch (u :: rest) = list_agent_card fetch rest := by
          rw [list_agent_card, hf]
        have h2 : (if decide (FetchResult.failure = FetchResult.failure) = true
            then 1 else 0) = 1 := by simp
        rw [h1, h2]
        omega

/-- Witness for C7: the spec's §8 scenario — sources http://a (valid) and
http://b (fails) yield exactly the one card from http://a. -/
theorem discovery_partial_failure_witness :
    (list_agent_card demoFetch ["http://a", "http://b"]
      = ["http://a", "http://b"].filterMap (fun u =>
          match demoFetch u with
          | FetchResult.ok c => some c
          | FetchResult.failure => none) ∧
    (list_agent_card demoFetch ["http://a", "http://b"]).length
        + ["http://a", "http://b"].countP
            (fun u => decide (demoFetch u = FetchResult.failure))
      = ["http://a", "http://b"].length ∧
    load_registry RegistryData.missing = [] ∧
    load_registry RegistryData.unparseable = [] ∧
    load_registry RegistryData.notAList = [] ∧
    list_agent_card demoFetch (load_registry RegistryData.missing) = []) :=
  discovery_partial_failure demoFetch ["http://a", "http://b"]

/-! ## Claim C8 — session continuity -/

/-- Counterexample to C8's scenario clause: dispatching twice with
inbound sessionId "s1" from a fresh tool state does reuse ONE stable
outbound session id, but that id is the fabricated uuid4 string (36
characters, here a concrete representative), not "s1": neither outbound
connector call carries session "s1". -/
theorem delegate_task_session_not_inbound :
    delegate_twice "s1" none
        "3f2c8a90-5b77-4b6e-9ad2-6f41c0a7d1e5" "9b1deb4d-3b7d-4bad-9bdd-2b0d7b3dcb6d"
      = ("3f2c8a90-5b77-4b6e-9ad2-6f41c0a7d1e5", "3f2c8a90-5b77-4b6e-9ad2-6f41c0a7d1e5") ∧
    "3f2c8a90-5b77-4b6e-9ad2-6f41c0a7d1e5" ≠ "s1" := by
  refine ⟨rfl, by decide⟩

/-- Claim C8 (amended): across repeated dispatches the orchestrator uses
one stable outbound session identifier — the second dispatch reuses
exactly the id of the first, and a pre-existing stored id is always
reused, so no fresh id is fabricated per call (only once per conversation
state) — but that identifier is the stored uuid4 value, independent of
the inbound request sessionId, which `_delegate_task` never reads. -/
theorem delegate_task_session_stable (inbound : String) (state : Option String)
    (u1 u2 : String) :
    (delegate_task_session inbound
        (delegate_task_session inbound state u1).1 u2).2
      = (delegate_task_session inbound state u1).2 ∧
    (state = none → (delegate_task_session inbound state u1).2 = u1) ∧
    (∀ s, state = some s → (delegate_task_session inbound state u1).2 = s) ∧
    (∀ inbound2, delegate_task_session inbound2 state u1
      = delegate_task_session inbound state u1) := by
  refine ⟨?_, ?_, ?_, ?_⟩
  · cases state with
    | none => rfl
    | some s => rfl
  · intro h; subst h; rfl
  · intro s h; subst h; rfl
  · intro inbound2
    cases state with
    | none => rfl
    | some s => rfl

/-- Witness for C8 (amended) at a fresh state and concrete uuids. -/
theorem delegate_task_session_stable_witness :
    ((delegate_task_session "s1"
        (delegate_task_session "s1" none "u-one").1 "u-two").2
      = (delegate_task_session "s1" none "u-one").2 ∧
    ((none : Option String) = none →
      (delegate_task_session "s1" none "u-one").2 = "u-one") ∧
    (∀ s, (none : Option String) = some s →
      (delegate_task_session "s1" none "u-one").2 = s) ∧
    (∀ inbound2, delegate_task_session inbound2 none "u-one"
      = delegate_task_session "s1" none "u-one")) :=
  delegate_task_session_stable "s1" none "u-one" "u-two"

/-! ## Claim C9 — connector failure surfacing -/

/-- Claim C9: a transport failure (and likewise a non-2xx status, which
`raise_for_status` folds into the same `httpx.HTTPError` hierarchy)
surfaces as `A2AClientHttpError`; a malformed/non-JSON reply surfaces as
the distinct `A2AClientJSONError`; the two error constructors are never
equal, so the caller can distinguish them; a failed call never produces an
`ok` result (never silently swallowed, no Task returned); and the
connector propagates these errors unchanged. -/
theorem connector_error_surfacing (d : String) (o : WireOutcome) :
    send_request (WireOutcome.transportFailure d)
      = Except.error (ClientError.a2aClientHttpError ("HTTP error occurred: " ++ d)) ∧
    send_request (WireOutcome.invalidJson d)
      = Except.error (ClientError.a2aClientJsonError ("Error parsing JSON response: " ++ d)) ∧
    (∀ m1 m2, ClientError.a2aClientHttpError m1 ≠ ClientError.a2aClientJsonError m2) ∧
    (∀ r, send_request o = Except.ok r → o = WireOutcome.okJson r) ∧
    connector_send_task o = send_request o := by
  refine ⟨rfl, rfl, ?_, ?_, rfl⟩
  · intro m1 m2 hc
    exact ClientError.noConfusion hc
  · intro r h
    cases o with
    | transportFailure d2 => exact absurd h (by simp [send_request])
    | badStatus d2 => exact absurd h (by simp [send_request])
    | invalidJson d2 => exact absurd h (by simp [send_request])
    | okJson r2 =>
      rw [send_request] at h
      rw [Except.ok.injEq] at h
      rw [h]

/-- Witness for C9 at a concrete failure detail and wire outcome. -/
theorem connector_error_surfacing_witness :
    (send_request (WireOutcome.transportFailure "timeout")
      = Except.error (ClientError.a2aClientHttpError ("HTTP error occurred: " ++ "timeout")) ∧
    send_request (WireOutcome.invalidJson "timeout")
      = Except.error (ClientError.a2aClientJsonError
          ("Error parsing JSON response: " ++ "timeout")) ∧
    (∀ m1 m2, ClientError.a2aClientHttpError m1 ≠ ClientError.a2aClientJsonError m2) ∧
    (∀ r, send_request (WireOutcome.okJson none) = Except.ok r →
      WireOutcome.okJson none = WireOutcome.okJson r) ∧
    connector_send_task (WireOutcome.okJson none)
      = send_request (WireOutcome.okJson none)) :=
  connector_error_surfacing "timeout" (WireOutcome.okJson none)

/-! ## Claim C10 — get_tools returns a copy -/

/-- Claim C10: `get_tools` hands out a copy of the internal tool cache:
the returned list has the same elements as the cache; mutating the
returned list object — replacing its contents with anything — leaves the
internal cache unchanged; and a `get_tools` call made after the mutation
still returns the elements held before the mutation. -/
theorem get_tools_returns_copy (h : ToolHeap) (internal : Nat)
    (hmem : internal ∈ h.map Prod.fst) (mutated : List String) :
    heap_get (get_tools h internal).1 (get_tools h internal).2 = heap_get h internal ∧
    heap_get (heap_set (get_tools h internal).1 (get_tools h internal).2 mutated) internal
      = heap_get h internal ∧
    heap_get
        (get_tools (heap_set (get_tools h internal).1 (get_tools h internal).2 mutated)
          internal).1
        (get_tools (heap_set (get_tools h internal).1 (get_tools h internal).2 mutated)
          internal).2
      = heap_get h internal := by
  have hne : internal ≠ fresh_ref h := mem_ne_fresh_ref hmem
  have hcopy : heap_get (get_tools h internal).1 (get_tools h internal).2
      = heap_get h internal := by
    rw [get_tools]
    dsimp only
    rw [heap_get, lookup_cons_self]
    rfl
  have hframe : heap_get (heap_set (get_tools h internal).1 (get_tools h internal).2 mutated)
      internal = heap_get h internal := by
    rw [get_tools]
    dsimp only
    rw [heap_get, lookup_heap_set_ne _ _ _ _ hne, lookup_cons_ne _ _ _ _ hne]
    rfl
  refine ⟨hcopy, hframe, ?_⟩
  rw [get_tools]
  dsimp only
  rw [heap_get, lookup_cons_self]
  exact hframe

/-- Witness for C10 at a one-cell heap holding the tool list of the
filesystem MCP server. -/
theorem get_tools_returns_copy_witness :
    (1 ∈ ([(1, ["read_file", "list_directory"])] : ToolHeap).map Prod.fst) ∧
    (heap_get (get_tools [(1, ["read_file", "list_directory"])] 1).1
        (get_tools [(1, ["read_file", "list_directory"])] 1).2
      = heap_get [(1, ["read_file", "list_directory"])] 1 ∧
    heap_get
        (heap_set (get_tools [(1, ["read_file", "list_directory"])] 1).1
          (get_tools [(1, ["read_file", "list_directory"])] 1).2 [])
        1
      = heap_get [(1, ["read_file", "list_directory"])] 1 ∧
    heap_get
        (get_tools
          (heap_set (get_tools [(1, ["read_file", "list_directory"])] 1).1
            (get_tools [(1, ["read_file", "list_directory"])] 1).2 [])
          1).1
        (get_tools
          (heap_set (get_tools [(1, ["read_file", "list_directory"])] 1).1
            (get_tools [(1, ["read_file", "list_directory"])] 1).2 [])
          1).2
      = heap_get [(1, ["read_file", "list_directory"])] 1) :=
  ⟨by decide, get_tools_returns_copy [(1, ["read_file", "list_directory"])] 1 (by decide) []⟩

end A2A
